import Mathlib

/-!
Verification of the AMQP adapter of the `moleculer-channels` repository
(`src/adapters/amqp.js`), shallowly embedded in Lean 4.

Conventions of the embedding:
* JS `null`/`undefined` numeric fields become `Option Nat`.
* Message payload bytes become `List Nat`.
* The AMQP broker operations performed by the consumer handler
  (`channel.ack`, `channel.nack`, `channel.publish`) become an explicit
  `Action` trace, so that theorems can speak about exactly which broker
  operations a code path performs and in which order.
* Message headers relevant to the adapter are `x-redelivered-count`
  (field `redeliveredCount`) and `x-original-channel`
  (field `originalChannel`).
-/

namespace AmqpAdapter

/-- The two wire headers the adapter reads/writes:
`x-redelivered-count` and `x-original-channel`. -/
structure Headers where
  redeliveredCount : Option Nat
  originalChannel : Option String
deriving DecidableEq

/-- An in-flight message envelope: payload bytes plus headers
(`msg.content` and `msg.properties.headers` in the source). -/
structure Message where
  content : List Nat
  headers : Headers
deriving DecidableEq

/-- Effective dead-lettering policy as seen by the consumer handler
(`chan.deadLettering` after `subscribe` resolved it). An absent
`exchangeName` is modelled as `""` because the handler uses
`chan.deadLettering.exchangeName || ""`. -/
structure DeadLettering where
  enabled : Bool
  queueName : String
  exchangeName : String
deriving DecidableEq

/-- Channel descriptor as seen by the consumer handler,
after `subscribe` backfilled defaults. `maxRetries = none` models a
`null`/`undefined` value (the adapter default may itself be null). -/
structure Channel where
  name : String
  group : String
  id : String
  maxRetries : Option Nat
  deadLettering : DeadLettering
deriving DecidableEq

/-- A broker operation performed by the consumer handler:
`channel.ack(msg)`, `channel.nack(msg, allUpTo, requeue)`,
`channel.publish(exchange, routingKey, content, {headers})`, or a thrown
`MoleculerError` when `publish` returned `false`. -/
inductive Action where
  | ack
  | nack (allUpTo requeue : Bool)
  | publish (exchange routingKey : String) (content : List Nat) (headers : Headers)
  | throwErr (msg : String)
deriving DecidableEq

/-- `msg.properties.headers["x-redelivered-count"] || 1`: the JS `||`
treats both an absent header and a `0` header as falsy, yielding `1`. -/
def getRedeliveryCount (h : Option Nat) : Nat :=
  match h with
  | none => 1
  | some 0 => 1
  | some (c + 1) => c + 1

/-- JS truth test `!chan.maxRetries`: true for `null`/`undefined`/`0`. -/
def maxRetriesFalsy (mr : Option Nat) : Bool :=
  match mr with
  | none => true
  | some 0 => true
  | some (_ + 1) => false

/-- JS condition `chan.maxRetries > 0 && redeliveryCount >= chan.maxRetries`
(`null > 0` is false in JS, hence `none` yields `false`). -/
def retriesExhausted (mr : Option Nat) (rc : Nat) : Bool :=
  match mr with
  | none => false
  | some m => decide (0 < m) && decide (m ≤ rc)

/-- Error message thrown when `channel.publish` returns `false`. -/
def writeBufferFullMsg : String := "AMQP publish error. Write buffer is full."

/-- The `catch` block of `createConsumerHandler` (amqp.js lines 319-375):
what the handler does after `chan.handler(content)` failed.

Faithful to the source, the `if (!chan.maxRetries)` branch nacks the
message but does NOT return, so execution continues into the
redelivery-count logic below it.

`pubOk` models the boolean result of `channel.publish` (`false` means
the write buffer is full, making the handler throw instead of acking).
Returns the list of broker operations performed, paired with the
message republished to the channel's own queue when the requeue branch
ran (`none` otherwise). -/
def onHandlerFailure (chan : Channel) (msg : Message) (pubOk : Bool) :
    List Action × Option Message :=
  let dropPart : List Action :=
    if maxRetriesFalsy chan.maxRetries then [Action.nack false false] else []
  let rc := getRedeliveryCount msg.headers.redeliveredCount
  if retriesExhausted chan.maxRetries rc then
    if chan.deadLettering.enabled then
      let act := Action.publish chan.deadLettering.exchangeName
        chan.deadLettering.queueName msg.content
        { redeliveredCount := none, originalChannel := some chan.name }
      if pubOk then (dropPart ++ [act, Action.ack], none)
      else (dropPart ++ [act, Action.throwErr writeBufferFullMsg], none)
    else
      (dropPart ++ [Action.nack false false], none)
  else
    let queueName := chan.group ++ "." ++ chan.name
    let newHeaders : Headers :=
      { msg.headers with redeliveredCount := some (rc + 1) }
    let act := Action.publish "" queueName msg.content newHeaders
    if pubOk then
      (dropPart ++ [act, Action.ack],
        some { content := msg.content, headers := newHeaders })
    else
      (dropPart ++ [act, Action.throwErr writeBufferFullMsg], none)

/-- Iterates `onHandlerFailure` over successive broker deliveries of a
message whose handler fails on every delivery (the broker delivers the
republished message back to the same consumer). Each list element is
the action trace of one delivery. `fuel` bounds the number of
deliveries observed. -/
def runFailures (chan : Channel) (msg : Message) (fuel : Nat) :
    List (List Action) :=
  match fuel with
  | 0 => []
  | fuel' + 1 =>
    match onHandlerFailure chan msg true with
    | (acts, none) => [acts]
    | (acts, some m') => acts :: runFailures chan m' fuel'

/-! ### Connection URL selection (`tryConnect`, amqp.js lines 136-142) -/

/-- URL pick of one `tryConnect` call when the configured URL is a list:
`connectAttempt = (connectAttempt || 0) + 1; urlIndex = (connectAttempt - 1) % uri.length`.
Returns the updated `connectAttempt` and the chosen URL. -/
def tryConnectPickUrl (urls : List String) (connectAttempt : Nat) :
    Nat × Option String :=
  let attempt := connectAttempt + 1
  (attempt, urls.get? ((attempt - 1) % urls.length))

/-- The URL targeted by the `k`-th connect attempt (1-based), starting
from the constructor's `connectAttempt = 0`. -/
def urlOfAttempt (urls : List String) (k : Nat) : Option String :=
  urls.get? ((k - 1) % urls.length)

/-- The URLs chosen by `n` successive `tryConnect` calls starting from
`connectAttempt` state `st` (each failed attempt leads `connect` to call
`tryConnect` again, which increments the counter). -/
def attemptSeqFrom (urls : List String) (st : Nat) : Nat → List (Option String)
  | 0 => []
  | n + 1 =>
    (tryConnectPickUrl urls st).2 ::
      attemptSeqFrom urls (tryConnectPickUrl urls st).1 n

/-! ### `subscribe` / `resubscribeAllChannels` (amqp.js lines 230-295, 424-429)

Only the parts of `subscribe` that determine names and the stored
descriptor are modelled: backfilling `maxRetries`, deep-merging
`deadLettering` over the adapter options, prefixing the dead-letter
names, and the exchange / durable-queue names asserted. -/

/-- Partial dead-lettering configuration with possibly-absent fields,
as it sits on a registered channel descriptor or in adapter options
before `_.defaultsDeep` resolves it. -/
structure DLConfig where
  enabled : Option Bool
  queueName : Option String
  exchangeName : Option String
deriving DecidableEq

/-- Channel descriptor as stored in the subscription table: `subscribe`
mutates this very record in place, so the mutated record is what
`resubscribeAllChannels` feeds back into `subscribe`. -/
structure ChanReg where
  name : String
  group : String
  id : String
  maxRetries : Option Nat
  deadLettering : DLConfig
deriving DecidableEq

/-- Adapter-level options consulted by `subscribe`
(`this.opts.maxRetries`, `this.opts.deadLettering`). -/
structure AdapterOpts where
  maxRetries : Option Nat
  deadLettering : DLConfig
deriving DecidableEq

/-- Modelled from the spec: `addPrefixTopic` is defined in
`src/adapters/base.js`, which is not present under `src/`; the spec
(section 6) describes a "topic/queue/exchange name prefix (applied
uniformly to dead-letter destinations)". We model it as prepending
`pfx` and a dot when both the configured prefix and the topic are
nonempty (a falsy topic or prefix leaves the topic unchanged). -/
def addPrefixTopic (pfx : String) (topic : String) : String :=
  if pfx = "" ∨ topic = "" then topic else pfx ++ "." ++ topic

/-- `_.defaultsDeep({}, chan.deadLettering, this.opts.deadLettering)`:
per-field, the channel's value wins when present, otherwise the
adapter option's value. -/
def mergeDL (c o : DLConfig) : DLConfig :=
  { enabled := c.enabled <|> o.enabled,
    queueName := c.queueName <|> o.queueName,
    exchangeName := c.exchangeName <|> o.exchangeName }

/-- The descriptor-mutating part of `subscribe` (amqp.js lines 236-244):
backfill `maxRetries` when `== null`, replace `deadLettering` with the
merged configuration, and, when dead-lettering is enabled, apply
`addPrefixTopic` to its queue and exchange names. The returned record
is what ends up stored in the subscription table. -/
def subscribeReg (opts : AdapterOpts) (pfx : String) (chan : ChanReg) : ChanReg :=
  let mr := match chan.maxRetries with
    | none => opts.maxRetries
    | some m => some m
  let dl := mergeDL chan.deadLettering opts.deadLettering
  let dl' :=
    if dl.enabled = some true then
      { dl with
        queueName := dl.queueName.map (addPrefixTopic pfx),
        exchangeName := dl.exchangeName.map (addPrefixTopic pfx) }
    else dl
  { chan with maxRetries := mr, deadLettering := dl' }

/-- The durable queue asserted by `subscribe`:
`const queueName = chan.group + "." + chan.name`. -/
def durableQueueName (chan : ChanReg) : String := chan.group ++ "." ++ chan.name

/-- The fanout exchange asserted by `subscribe`: named `chan.name`. -/
def exchangeNameOf (chan : ChanReg) : String := chan.name

/-- `resubscribeAllChannels` (amqp.js lines 424-429): re-run `subscribe`
on every descriptor currently in the subscription table (keyed by
`chan.id`; `subscribe` re-inserts under the same id). -/
def resubscribeAll (opts : AdapterOpts) (pfx : String)
    (subs : List (String × ChanReg)) : List (String × ChanReg) :=
  subs.map (fun p => (p.1, subscribeReg opts pfx p.2))

/-! ### `unsubscribe` (amqp.js lines 384-418)

The subscription table maps channel ids to subscription entries (we
keep only the `consumerTag`, the part `unsubscribe` destructures).
`unsubscribe` looks up the entry, cancels the consumer, then polls the
Active-Message Tracker count every 1000 ms until it is zero, stops
tracking the channel and resolves. The tracker lives in
`src/adapters/base.js`, which is not present under `src/`; following
the spec (section 3) its count over time is abstracted as the list
`counts` of values `getNumberOfChannelActiveMessages(chan.id)` would
return at the successive polls. -/

/-- Observable step of `unsubscribe`: `channel.cancel(consumerTag)`, the
progress log of one poll that found `n > 0` in-flight messages, the
1000 ms `setTimeout` wait before the next poll, and
`stopChannelActiveMessages(chan.id)`. -/
inductive UAction where
  | cancel (tag : String)
  | logProgress (n : Nat)
  | wait (ms : Nat)
  | stopTracking (id : String)
deriving DecidableEq

/-- The `checkPendingMessages` poll loop: at each poll it reads the
tracker count; on zero it stops tracking and resolves, otherwise it
logs progress and schedules the next poll after 1000 ms. Returns
`none` when the loop has not resolved within the observed `counts`. -/
def pollLoop (id : String) : List Nat → Option (List UAction)
  | [] => none
  | c :: rest =>
    if c = 0 then some [UAction.stopTracking id]
    else
      match pollLoop id rest with
      | some acts => some (UAction.logProgress c :: UAction.wait 1000 :: acts)
      | none => none

/-- `this.subscriptions.get(chan.id)` on the modelled table. -/
def lookupSub (subs : List (String × String)) (id : String) : Option String :=
  (subs.find? (fun p => p.1 = id)).map Prod.snd

/-- `unsubscribe(chan)`: destructure `consumerTag` from the subscription
table entry (a missing entry makes the destructuring throw a JS
`TypeError`, modelled as `Except.error`), cancel the consumer, then run
the poll loop. `Except.ok none` means the call has not returned within
the observed tracker counts; `Except.ok (some acts)` means it returned
after performing `acts`. -/
def unsubscribeRun (subs : List (String × String)) (id : String)
    (counts : List Nat) : Except String (Option (List UAction)) :=
  match lookupSub subs id with
  | none =>
    Except.error "TypeError: Cannot destructure property consumerTag of undefined"
  | some tag =>
    match pollLoop id counts with
    | some acts => Except.ok (some (UAction.cancel tag :: acts))
    | none => Except.ok none

/-! ### `publish` and `disconnect` (amqp.js lines 208-223, 438-462) -/

/-- Connection-related adapter state: `this.connected`, `this.stopping`
and whether `this.connection` is non-null. -/
structure ConnState where
  connected : Bool
  stopping : Bool
  hasConnection : Bool
deriving DecidableEq

/-- Result of a `publish(channelName, payload, opts)` call: the silent
early return under `stopping`, a successful hand-off of `data` to
`channel.publish` on exchange `channelName`, or the thrown
`MoleculerError` when `channel.publish` returned `false`. -/
inductive PublishOutcome where
  | noop
  | published (exchange : String) (data : List Nat)
  | backpressureError (msg : String)
deriving DecidableEq

/-- `publish` (amqp.js lines 438-462). `ser` is the external serializer
(`this.serializer.serialize`); `raw` is `opts.raw`; `transportAccepts`
models the boolean result of `channel.publish`. The second component
counts how many times `channel.publish` was invoked by this call. -/
def publishRun (st : ConnState) (channelName : String) (payload : List Nat)
    (raw : Bool) (ser : List Nat → List Nat) (transportAccepts : Bool) :
    PublishOutcome × Nat :=
  if st.stopping then (PublishOutcome.noop, 0)
  else
    let data := if raw then payload else ser payload
    if transportAccepts then (PublishOutcome.published channelName data, 1)
    else (PublishOutcome.backpressureError writeBufferFullMsg, 1)

/-- `disconnect` (amqp.js lines 208-223): early return when already
stopping; otherwise set `stopping`, try to close the connection
(`closeOk = false` models `connection.close()` throwing, which the
`catch` swallows after logging), and finally reset `stopping := false`
in every path. -/
def disconnectRun (st : ConnState) (closeOk : Bool) : ConnState :=
  if st.stopping then st
  else
    let st1 := { st with stopping := true }
    let st2 :=
      if st1.hasConnection then
        if closeOk then { st1 with hasConnection := false, connected := false }
        else st1
      else st1
    { st2 with stopping := false }

/-! ## Helper lemmas -/

/-- A positive `x-redelivered-count` header is read back verbatim. -/
theorem getRedeliveryCount_pos (c : Nat) (hc : 1 ≤ c) :
    getRedeliveryCount (some c) = c := by
  cases c with
  | zero => omega
  | succ n => rfl

/-- Trace of repeated failing deliveries starting from redelivery count
`c` with `c + j = N = maxRetries`: exactly `j` further requeues, with
counts `c+1, ..., c+j`, then the terminal dead-letter/drop step. -/
theorem runFailures_count_spec (chan : Channel) (content : List Nat)
    (oc : Option String) (N : Nat) (hmr : chan.maxRetries = some N) :
    ∀ j c fuel, 1 ≤ c → c + j = N → j + 1 ≤ fuel →
    runFailures chan ⟨content, ⟨some c, oc⟩⟩ fuel =
      (List.range j).map (fun k =>
        [Action.publish "" (chan.group ++ "." ++ chan.name) content
           ⟨some (c + k + 1), oc⟩, Action.ack]) ++
      [if chan.deadLettering.enabled then
          [Action.publish chan.deadLettering.exchangeName
             chan.deadLettering.queueName content ⟨none, some chan.name⟩,
           Action.ack]
        else [Action.nack false false]] := by
  intro j
  induction j with
  | zero =>
    intro c fuel hc hcN hfuel
    have hcN' : c = N := by omega
    subst hcN'
    obtain ⟨fuel', rfl⟩ : ∃ f, fuel = f + 1 := ⟨fuel - 1, by omega⟩
    have hrc : getRedeliveryCount (some c) = c := getRedeliveryCount_pos c hc
    have hex : retriesExhausted chan.maxRetries c = true := by
      rw [hmr]; simp [retriesExhausted]; omega
    have hfalsy : maxRetriesFalsy chan.maxRetries = false := by
      rw [hmr]
      cases c with
      | zero => omega
      | succ n => rfl
    simp only [runFailures, onHandlerFailure, hrc, hex, hfalsy]
    cases hdl : chan.deadLettering.enabled <;> simp [hdl]
  | succ j ih =>
    intro c fuel hc hcN hfuel
    obtain ⟨fuel', rfl⟩ : ∃ f, fuel = f + 1 := ⟨fuel - 1, by omega⟩
    have hrc : getRedeliveryCount (some c) = c := getRedeliveryCount_pos c hc
    have hex : retriesExhausted chan.maxRetries c = false := by
      rw [hmr]; simp [retriesExhausted]; omega
    have hfalsy : maxRetriesFalsy chan.maxRetries = false := by
      rw [hmr]
      have : ∃ m, N = m + 1 := ⟨N - 1, by omega⟩
      obtain ⟨m, rfl⟩ := this
      rfl
    simp only [runFailures, onHandlerFailure, hrc, hex, hfalsy]
    simp only [Bool.false_eq_true, if_false, if_true, List.nil_append]
    rw [ih (c + 1) fuel' (by omega) (by omega) (by omega)]
    rw [List.range_succ_eq_map]
    simp only [List.map_cons, List.map_map, Function.comp]
    have harith : ∀ k : Nat, c + 1 + k + 1 = c + Nat.succ k + 1 := by omega
    simp [harith]

/-- A message with no `x-redelivered-count` header is handled exactly
like one whose header is `1` (the JS `|| 1` default). -/
theorem onHandlerFailure_fresh (chan : Channel) (content : List Nat) (pubOk : Bool) :
    onHandlerFailure chan ⟨content, ⟨none, none⟩⟩ pubOk =
      onHandlerFailure chan ⟨content, ⟨some 1, none⟩⟩ pubOk := rfl

/-- Lifting of `onHandlerFailure_fresh` to repeated deliveries. -/
theorem runFailures_fresh_eq (chan : Channel) (content : List Nat) (fuel : Nat) :
    runFailures chan ⟨content, ⟨none, none⟩⟩ fuel =
      runFailures chan ⟨content, ⟨some 1, none⟩⟩ fuel := by
  cases fuel with
  | zero => rfl
  | succ f => simp only [runFailures, onHandlerFailure_fresh]

/-- Full failure trace of a fresh message on a channel with
`maxRetries = N > 0`: `N - 1` requeues with header values `2, ..., N`,
then dead-letter-and-ack or nack-without-requeue. -/
theorem runFailures_fresh_spec (chan : Channel) (content : List Nat) (N fuel : Nat)
    (hmr : chan.maxRetries = some N) (hN : 0 < N) (hfuel : N ≤ fuel) :
    runFailures chan ⟨content, ⟨none, none⟩⟩ fuel =
      (List.range (N - 1)).map (fun k =>
        [Action.publish "" (chan.group ++ "." ++ chan.name) content
           ⟨some (k + 2), none⟩, Action.ack]) ++
      [if chan.deadLettering.enabled then
          [Action.publish chan.deadLettering.exchangeName
             chan.deadLettering.queueName content ⟨none, some chan.name⟩,
           Action.ack]
        else [Action.nack false false]] := by
  rw [runFailures_fresh_eq]
  rw [runFailures_count_spec chan content none N hmr (N - 1) 1 fuel le_rfl
    (by omega) (by omega)]
  have harith : ∀ k : Nat, 1 + k + 1 = k + 2 := by omega
  simp [harith]

/-! ## Claims C1, C2, C5: the message-processing state machine -/

/-- C1: the claim says a failing message on a channel with falsy
`maxRetries` goes straight to Dropped (nack without requeue) with no
other routing action. The code's `if (!chan.maxRetries)` branch nacks
but does not return, so the handler additionally republishes the
message to its own queue with `x-redelivered-count = 2` and then acks
the nacked delivery — contradicting the code's own "No retries, drop
message" comment. This theorem evaluates the handler at such an input
and exhibits the extra publish and ack after the nack. -/
theorem c1_zero_retries_fallthrough :
    onHandlerFailure ⟨"orders", "g", "g.orders", none, ⟨false, "", ""⟩⟩
        ⟨[1, 2], ⟨none, none⟩⟩ true =
      ([Action.nack false false,
        Action.publish "" "g.orders" [1, 2] ⟨some 2, none⟩,
        Action.ack],
       some ⟨[1, 2], ⟨some 2, none⟩⟩) := by decide

/-- C2: on a channel with effective `maxRetries = N > 0`, a message
whose handler fails on every delivery is republished to its own
durable queue exactly `N - 1` times, with `x-redelivered-count`
incremented to `2, ..., N` (absent counting as `1` on first delivery),
and on the delivery where the count reaches `N` it is dead-lettered
(publish + ack) when dead-lettering is enabled, or nacked without
requeue otherwise. -/
theorem c2_retry_budget_exact (chan : Channel) (content : List Nat) (N fuel : Nat)
    (hmr : chan.maxRetries = some N) (hN : 0 < N) (hfuel : N ≤ fuel) :
    runFailures chan ⟨content, ⟨none, none⟩⟩ fuel =
      (List.range (N - 1)).map (fun k =>
        [Action.publish "" (chan.group ++ "." ++ chan.name) content
           ⟨some (k + 2), none⟩, Action.ack]) ++
      [if chan.deadLettering.enabled then
          [Action.publish chan.deadLettering.exchangeName
             chan.deadLettering.queueName content ⟨none, some chan.name⟩,
           Action.ack]
        else [Action.nack false false]] :=
  runFailures_fresh_spec chan content N fuel hmr hN hfuel

/-- Witness for C2 at `maxRetries = 3`, dead-lettering disabled:
two requeues (headers 2 and 3), then nack without requeue. -/
theorem c2_retry_budget_exact_witness :
    (Channel.mk "orders" "g" "g.orders" (some 3) ⟨false, "", ""⟩).maxRetries = some 3
    ∧ 0 < 3 ∧ 3 ≤ 3
    ∧ runFailures ⟨"orders", "g", "g.orders", some 3, ⟨false, "", ""⟩⟩
        ⟨[7], ⟨none, none⟩⟩ 3 =
      (List.range 2).map (fun k =>
        [Action.publish "" ("g" ++ "." ++ "orders") [7] ⟨some (k + 2), none⟩,
         Action.ack]) ++
      [if (false : Bool) then
          [Action.publish "" "" [7] ⟨none, some "orders"⟩, Action.ack]
        else [Action.nack false false]] :=
  ⟨rfl, by decide, by decide,
    c2_retry_budget_exact ⟨"orders", "g", "g.orders", some 3, ⟨false, "", ""⟩⟩
      [7] 3 3 rfl (by decide) (by decide)⟩

/-- C5: with `maxRetries = 2` and dead-lettering enabled towards queue
"DLQ", a message whose handler throws on both deliveries is requeued
once (header 2), and on the second delivery a message with identical
payload bytes and header `x-original-channel = ` the channel name is
published to "DLQ" via the configured dead-letter exchange (the default
exchange `""` when none is configured), and the delivery is acked. -/
theorem c5_dead_letter_after_two (nm grp cid e : String) (content : List Nat)
    (fuel : Nat) (hfuel : 2 ≤ fuel) :
    runFailures ⟨nm, grp, cid, some 2, ⟨true, "DLQ", e⟩⟩ ⟨content, ⟨none, none⟩⟩ fuel =
      [[Action.publish "" (grp ++ "." ++ nm) content ⟨some 2, none⟩, Action.ack],
       [Action.publish e "DLQ" content ⟨none, some nm⟩, Action.ack]] := by
  have h := runFailures_fresh_spec ⟨nm, grp, cid, some 2, ⟨true, "DLQ", e⟩⟩
    content 2 fuel rfl (by decide) hfuel
  simpa using h

/-- Witness for C5 on channel "orders" with dead-letter exchange "DLX". -/
theorem c5_dead_letter_after_two_witness :
    2 ≤ 2
    ∧ runFailures ⟨"orders", "g", "g.orders", some 2, ⟨true, "DLQ", "DLX"⟩⟩
        ⟨[9], ⟨none, none⟩⟩ 2 =
      [[Action.publish "" ("g" ++ "." ++ "orders") [9] ⟨some 2, none⟩, Action.ack],
       [Action.publish "DLX" "DLQ" [9] ⟨none, some "orders"⟩, Action.ack]] :=
  ⟨by decide, c5_dead_letter_after_two "orders" "g" "g.orders" "DLX" [9] 2 (by decide)⟩

/-! ## Claim C3: connection URL round-robin -/

/-- The URLs of successive attempts from counter state `st` are the
list members at indices `st, st + 1, ...` modulo the list length. -/
theorem attemptSeqFrom_eq (urls : List String) :
    ∀ n st, attemptSeqFrom urls st n =
      (List.range n).map (fun i => urls.get? ((st + i) % urls.length)) := by
  intro n
  induction n with
  | zero => intro st; rfl
  | succ n ih =>
    intro st
    rw [attemptSeqFrom, ih (tryConnectPickUrl urls st).1]
    rw [List.range_succ_eq_map]
    simp only [List.map_cons, List.map_map, Function.comp, tryConnectPickUrl]
    have h1 : st + 1 - 1 = st + 0 := by omega
    have h2 : ∀ i : Nat, st + 1 + i = st + Nat.succ i := by omega
    simp [h1, h2]

/-- C3 counterexample: with URL list `["host1", "host2"]` and the first
3 attempts failing, the 4th attempt targets "host2", not "host1" as
the claim states (the 3rd attempt is the one that wraps to "host1"). -/
theorem c3_counterexample :
    attemptSeqFrom ["host1", "host2"] 0 4 =
      [some "host1", some "host2", some "host1", some "host2"]
    ∧ urlOfAttempt ["host1", "host2"] 4 = some "host2"
    ∧ ¬ urlOfAttempt ["host1", "host2"] 4 = some "host1" := by decide

/-- C3 amended: successive connect attempts round-robin through the URL
list by `connectAttempt` modulo list length — the `k`-th attempt
(1-based) targets index `(k - 1) % length`, the pattern repeats with
period `length` — and with `["host1", "host2"]` the 3rd attempt targets
"host1" again while the 4th targets "host2". -/
theorem c3_round_robin (urls : List String) (a k n : Nat)
    (hk : 1 ≤ k) (hkn : k ≤ n) :
    (tryConnectPickUrl urls a).2 = urls.get? (a % urls.length)
    ∧ (attemptSeqFrom urls 0 n).get? (k - 1) = some (urlOfAttempt urls k)
    ∧ urlOfAttempt urls (k + urls.length) = urlOfAttempt urls k
    ∧ urlOfAttempt ["host1", "host2"] 3 = some "host1"
    ∧ urlOfAttempt ["host1", "host2"] 4 = some "host2" := by
  refine ⟨?_, ?_, ?_, by decide, by decide⟩
  · simp [tryConnectPickUrl]
  · rw [attemptSeqFrom_eq]
    have hlt : k - 1 < n := by omega
    simp [List.get?_eq_getElem?, List.getElem?_map, List.getElem?_range, hlt, urlOfAttempt]
  · have h : k + urls.length - 1 = (k - 1) + urls.length := by omega
    simp [urlOfAttempt, h, Nat.add_mod_right]

/-- Witness for the amended C3 at a one-element URL list, attempt 1. -/
theorem c3_round_robin_witness :
    1 ≤ 1 ∧ 1 ≤ 2
    ∧ ((tryConnectPickUrl ["h"] 0).2 = ["h"].get? (0 % (["h"] : List String).length)
    ∧ (attemptSeqFrom ["h"] 0 2).get? (1 - 1) = some (urlOfAttempt ["h"] 1)
    ∧ urlOfAttempt ["h"] (1 + (["h"] : List String).length) = urlOfAttempt ["h"] 1
    ∧ urlOfAttempt ["host1", "host2"] 3 = some "host1"
    ∧ urlOfAttempt ["host1", "host2"] 4 = some "host2") :=
  ⟨by decide, by decide, c3_round_robin ["h"] 0 1 2 (by decide) (by decide)⟩

/-! ## Claim C4: re-subscription after reconnect -/

/-- `Option.orElse` against the same fallback is absorptive. -/
theorem optOrElse_absorb {α : Type} (x y : Option α) : ((x <|> y) <|> y) = (x <|> y) := by
  cases x <;> cases y <;> rfl

/-- Merging an already-merged dead-letter config a second time against
the same adapter options changes nothing. -/
theorem mergeDL_idem (c o : DLConfig) : mergeDL (mergeDL c o) o = mergeDL c o := by
  simp [mergeDL, optOrElse_absorb]

/-- With an empty configured prefix, `addPrefixTopic` is the identity. -/
theorem addPrefixTopic_empty (t : String) : addPrefixTopic "" t = t := by
  simp [addPrefixTopic]

/-- `subscribe` with an empty prefix only backfills `maxRetries` and
merges the dead-letter configuration. -/
theorem subscribeReg_empty (opts : AdapterOpts) (chan : ChanReg) :
    subscribeReg opts "" chan =
      { chan with
        maxRetries := match chan.maxRetries with
          | none => opts.maxRetries
          | some m => some m,
        deadLettering := mergeDL chan.deadLettering opts.deadLettering } := by
  have hid : addPrefixTopic "" = fun t => t := funext addPrefixTopic_empty
  simp [subscribeReg, hid]

/-- With an empty prefix, re-running `subscribe` on the stored (already
mutated) descriptor is a no-op. -/
theorem subscribeReg_empty_idem (opts : AdapterOpts) (chan : ChanReg) :
    subscribeReg opts "" (subscribeReg opts "" chan) = subscribeReg opts "" chan := by
  rw [subscribeReg_empty, subscribeReg_empty]
  rcases chan with ⟨nm, gp, cid, mr, dl⟩
  simp only [mergeDL_idem]
  cases mr with
  | none => cases h : opts.maxRetries <;> simp [h]
  | some m => rfl

/-- C4 counterexample: with a non-empty configured prefix "ns" and
dead-lettering enabled with queue "DLQ", the first `subscribe` stores
the name "ns.DLQ" and re-subscribing the stored descriptor (as
`resubscribeAllChannels` does after a reconnect) prefixes it again,
yielding "ns.ns.DLQ" — the dead-letter queue name is not identical
after re-subscription, contradicting the claim. -/
theorem c4_counterexample :
    (subscribeReg ⟨none, ⟨some false, none, none⟩⟩ "ns"
        ⟨"orders", "g", "g.orders", none,
          ⟨some true, some "DLQ", some "DLX"⟩⟩).deadLettering.queueName
      = some "ns.DLQ"
    ∧ (subscribeReg ⟨none, ⟨some false, none, none⟩⟩ "ns"
        (subscribeReg ⟨none, ⟨some false, none, none⟩⟩ "ns"
          ⟨"orders", "g", "g.orders", none,
            ⟨some true, some "DLQ", some "DLX"⟩⟩)).deadLettering.queueName
      = some "ns.ns.DLQ"
    ∧ (some "ns.ns.DLQ" : Option String) ≠ some "ns.DLQ" := by decide

/-- C4 amended: after a reconnect every descriptor in the subscription
table is re-subscribed under its id; the durable queue name
(`group.name`) and the exchange name (`name`) are unchanged for any
prefix; and when the configured topic prefix is empty (the default)
re-subscription leaves the whole stored descriptor — including the
dead-letter queue and exchange names — unchanged. (With a non-empty
prefix the dead-letter names are re-prefixed, see the
counterexample.) -/
theorem c4_resubscribe_preserves (opts : AdapterOpts)
    (tbl : List (String × ChanReg)) (chan : ChanReg) (pfx : String) :
    resubscribeAll opts "" (resubscribeAll opts "" tbl) = resubscribeAll opts "" tbl
    ∧ (resubscribeAll opts pfx tbl).map Prod.fst = tbl.map Prod.fst
    ∧ durableQueueName (subscribeReg opts pfx chan) = durableQueueName chan
    ∧ exchangeNameOf (subscribeReg opts pfx chan) = exchangeNameOf chan := by
  refine ⟨?_, ?_, rfl, rfl⟩
  · simp [resubscribeAll, List.map_map, Function.comp, subscribeReg_empty_idem]
  · induction tbl with
    | nil => rfl
    | cons h t ih => simp only [resubscribeAll, List.map_cons] at ih ⊢; rw [ih]

/-! ## Claims C6, C10: graceful unsubscribe -/

/-- Shape of a resolved poll loop: one progress log and one 1000 ms
wait per poll that saw a nonzero count, then the tracking stop. -/
theorem pollLoop_some_eq (id : String) :
    ∀ counts acts, pollLoop id counts = some acts →
      acts = (counts.takeWhile (fun c => !(c == 0))).flatMap
               (fun c => [UAction.logProgress c, UAction.wait 1000]) ++
             [UAction.stopTracking id] := by
  intro counts
  induction counts with
  | nil => intro acts h; simp [pollLoop] at h
  | cons c rest ih =>
    intro acts h
    by_cases hc : c = 0
    · subst hc
      simp [pollLoop] at h
      simp [List.takeWhile, ← h]
    · rw [pollLoop] at h
      rw [if_neg hc] at h
      cases hrest : pollLoop id rest with
      | none => rw [hrest] at h; exact absurd h (by simp)
      | some as =>
        rw [hrest] at h
        simp only [Option.some.injEq] at h
        subst h
        rw [ih as hrest]
        have : (c == 0) = false := by simp [hc]
        simp [List.takeWhile, this]

/-- The poll loop does not resolve while every observed count is
nonzero. -/
theorem pollLoop_none_of_nonzero (id : String) :
    ∀ counts, (∀ c ∈ counts, c ≠ 0) → pollLoop id counts = none := by
  intro counts
  induction counts with
  | nil => intro _; rfl
  | cons c rest ih =>
    intro h
    have hc : c ≠ 0 := h c (by simp)
    have hrest := ih (fun x hx => h x (by simp [hx]))
    rw [pollLoop, if_neg hc, hrest]

/-- C6: `unsubscribe` cancels the broker-side consumer first, then
polls the Active-Message Tracker count at a fixed 1000 ms interval; it
never returns while the observed counts are all nonzero, and when it
returns its trace is the consumer cancellation, one progress log and
1000 ms wait per nonzero poll, and finally the stop of tracking for the
channel id, at the first poll whose count is zero. -/
theorem c6_graceful_unsubscribe (subs : List (String × String)) (id : String)
    (counts : List Nat) (tag : String) (hl : lookupSub subs id = some tag) :
    (∀ acts, unsubscribeRun subs id counts = Except.ok (some acts) →
        acts = UAction.cancel tag ::
          ((counts.takeWhile (fun c => !(c == 0))).flatMap
             (fun c => [UAction.logProgress c, UAction.wait 1000]) ++
           [UAction.stopTracking id])
        ∧ 0 ∈ counts
        ∧ (∀ ms, UAction.wait ms ∈ acts → ms = 1000))
    ∧ ((∀ c ∈ counts, c ≠ 0) → unsubscribeRun subs id counts = Except.ok none) := by
  constructor
  · intro acts h
    rw [unsubscribeRun, hl] at h
    cases hp : pollLoop id counts with
    | none => rw [hp] at h; exact absurd h (by simp)
    | some as =>
      rw [hp] at h
      simp only [Except.ok.injEq, Option.some.injEq] at h
      subst h
      have hform := pollLoop_some_eq id counts as hp
      refine ⟨by rw [hform], ?_, ?_⟩
      · by_contra hmem
        have hall : ∀ c ∈ counts, c ≠ 0 := by
          intro c hcmem
          intro hc0
          exact hmem (hc0 ▸ hcmem)
        rw [pollLoop_none_of_nonzero id counts hall] at hp
        exact absurd hp (by simp)
      · intro ms hms
        rw [hform] at hms
        simp at hms
        exact hms.2
  · intro hall
    rw [unsubscribeRun, hl, pollLoop_none_of_nonzero id counts hall]

/-- Witness for C6: channel "g.orders" with consumer tag "tag1" and
tracker counts 2 then 0 at the two polls. -/
theorem c6_witness :
    lookupSub [("g.orders", "tag1")] "g.orders" = some "tag1"
    ∧ ((∀ acts, unsubscribeRun [("g.orders", "tag1")] "g.orders" [2, 0] = Except.ok (some acts) →
        acts = UAction.cancel "tag1" ::
          (([2, 0].takeWhile (fun c => !(c == 0))).flatMap
             (fun c => [UAction.logProgress c, UAction.wait 1000]) ++
           [UAction.stopTracking "g.orders"])
        ∧ 0 ∈ [2, 0]
        ∧ (∀ ms, UAction.wait ms ∈ acts → ms = 1000))
    ∧ ((∀ c ∈ [2, 0], c ≠ 0) → unsubscribeRun [("g.orders", "tag1")] "g.orders" [2, 0] = Except.ok none)) :=
  ⟨by decide, c6_graceful_unsubscribe [("g.orders", "tag1")] "g.orders" [2, 0] "tag1" (by decide)⟩

/-- C10: calling `unsubscribe` for a channel id with no subscription
table entry throws (the JS destructuring of `undefined` raises a
`TypeError`) rather than returning as a no-op. -/
theorem c10_unsubscribe_missing_throws (subs : List (String × String)) (id : String)
    (counts : List Nat) (h : lookupSub subs id = none) :
    unsubscribeRun subs id counts =
      Except.error "TypeError: Cannot destructure property consumerTag of undefined" := by
  rw [unsubscribeRun, h]

/-- Witness for C10: empty subscription table. -/
theorem c10_unsubscribe_missing_throws_witness :
    lookupSub [] "g.orders" = none
    ∧ unsubscribeRun [] "g.orders" [] =
        Except.error "TypeError: Cannot destructure property consumerTag of undefined" :=
  ⟨rfl, c10_unsubscribe_missing_throws [] "g.orders" [] rfl⟩

/-! ## Claims C7, C8, C9: publish and disconnect -/

/-- C7 counterexample: in a disconnected but not-stopping state
(`connected = false`, `stopping = false`, as during a broker-initiated
connection loss before `disconnect` is called), `publish` is not a
silent no-op — the guard only checks `stopping`, so the call still
hands the data to the channel-level publish. -/
theorem c7_counterexample :
    (ConnState.mk false false true).connected = false
    ∧ (ConnState.mk false false true).stopping = false
    ∧ publishRun ⟨false, false, true⟩ "ch" [1] true (fun d => d) true
        = (PublishOutcome.published "ch" [1], 1)
    ∧ publishRun ⟨false, false, true⟩ "ch" [1] true (fun d => d) true
        ≠ (PublishOutcome.noop, 0) := by
  refine ⟨rfl, rfl, rfl, by decide⟩

/-- C7 amended: `publish` is a silent no-op exactly under the
`stopping` flag: whenever `stopping = true` it returns without error
and performs zero transport publishes; a merely-disconnected adapter
does not suppress the publish. -/
theorem c7_stopping_noop (st : ConnState) (ch : String) (p : List Nat)
    (raw : Bool) (ser : List Nat → List Nat) (tOk : Bool)
    (h : st.stopping = true) :
    publishRun st ch p raw ser tOk = (PublishOutcome.noop, 0) := by
  simp [publishRun, h]

/-- Witness for the amended C7 in a stopping state. -/
theorem c7_stopping_noop_witness :
    (ConnState.mk true true true).stopping = true
    ∧ publishRun ⟨true, true, true⟩ "ch" [1] false (fun d => d) true
        = (PublishOutcome.noop, 0) :=
  ⟨rfl, c7_stopping_noop ⟨true, true, true⟩ "ch" [1] false (fun d => d) true rfl⟩

/-- C8: when the channel-level publish reports a full write buffer
(returns `false`), the `publish` call fails with the dedicated
backpressure error and performs exactly one transport attempt — it is
not retried internally. -/
theorem c8_backpressure_error (st : ConnState) (ch : String) (p : List Nat)
    (raw : Bool) (ser : List Nat → List Nat) (h : st.stopping = false) :
    publishRun st ch p raw ser false
      = (PublishOutcome.backpressureError writeBufferFullMsg, 1) := by
  simp [publishRun, h]

/-- Witness for C8 with a buffer-full transport. -/
theorem c8_backpressure_error_witness :
    (ConnState.mk true false true).stopping = false
    ∧ publishRun ⟨true, false, true⟩ "ch" [3] true (fun d => d) false
        = (PublishOutcome.backpressureError writeBufferFullMsg, 1) :=
  ⟨rfl, c8_backpressure_error ⟨true, false, true⟩ "ch" [3] true (fun d => d) rfl⟩

/-- C9: `disconnect` resets `stopping` to `false` before resolving,
whether closing the connection succeeded or failed, so a publish
issued after a completed disconnect is not suppressed by the
`stopping` guard. -/
theorem c9_disconnect_resets_stopping (st : ConnState) (closeOk : Bool)
    (h : st.stopping = false) :
    (disconnectRun st closeOk).stopping = false
    ∧ ∀ ch p raw ser,
        publishRun (disconnectRun st closeOk) ch p raw ser true
          = (PublishOutcome.published ch (if raw then p else ser p), 1) := by
  have hs : (disconnectRun st closeOk).stopping = false := by
    simp [disconnectRun, h]
  refine ⟨hs, fun ch p raw ser => ?_⟩
  simp [publishRun, hs]

/-- Witness for C9 with a failing `connection.close()`. -/
theorem c9_disconnect_resets_stopping_witness :
    (ConnState.mk true false true).stopping = false
    ∧ (disconnectRun ⟨true, false, true⟩ false).stopping = false
    ∧ publishRun (disconnectRun ⟨true, false, true⟩ false) "ch" [2] true
        (fun d => d) true = (PublishOutcome.published "ch" [2], 1) :=
  ⟨rfl, (c9_disconnect_resets_stopping ⟨true, false, true⟩ false rfl).1,
    (c9_disconnect_resets_stopping ⟨true, false, true⟩ false rfl).2 "ch" [2] true (fun d => d)⟩

end AmqpAdapter
